import Mathlib

set_option linter.unusedVariables false

/-!
Verification development for the P2P-Server signaling repository.

The repository contains two near-identical WebSocket signaling servers:
`src/server-deno.js` (Deno) and an Express/ws server (Node). Both keep a
map from room id to a room record holding at most one sender socket, at
most one receiver socket, a shared token and a last-activity timestamp,
and route join / offer / answer / ice / leave messages between the two
occupants of a room.

The shallow embedding below models sockets by natural-number identifiers,
the JS `Map` objects by association lists, and each message handler as a
pure function from server state and message to the new server state plus
the list of outbound effects (messages sent, sockets closed).
-/

namespace Signaling

/-- Identifier standing for one WebSocket object. -/
abbrev ConnId := Nat

/-- A room record: `{ sender: null, receiver: null, token: null, touchedAt: now() }`. -/
structure Room where
  sender : Option ConnId
  receiver : Option ConnId
  token : Option String
  touchedAt : Nat
deriving DecidableEq

/-- Routing metadata the handlers attach to a socket (`ws.roomId`, `ws.role`);
both fields start out `undefined`. -/
structure Conn where
  roomId : Option String
  role : Option String
deriving DecidableEq

/-- Messages the server sends to clients. -/
inductive SMsg where
  | joined (roomId role : String)
  | ready
  | peerLeft
  | error (message : String)
  | relay (type : String) (data : Option String)
deriving DecidableEq

/-- Outbound effects: a JSON message written to a socket, or a socket close. -/
inductive Output where
  | msg (dest : ConnId) (m : SMsg)
  | close (dest : ConnId) (code : Nat) (reason : String)
deriving DecidableEq

/-- A parsed client message: the fields the handlers destructure, `none` when absent. -/
structure RawMsg where
  type : Option String
  roomId : Option String
  token : Option String
  role : Option String
  data : Option String
deriving DecidableEq

/-- Overall server state: the `rooms` map, the per-socket metadata, and the set
of currently open sockets (`readyState === OPEN`). -/
structure ServerState where
  rooms : List (String × Room)
  conns : List (ConnId × Conn)
  openConns : List ConnId
deriving DecidableEq

/-- JavaScript truthiness of a string-or-undefined value. -/
def truthy : Option String → Bool
  | none => false
  | some s => !(s == "")

/-- `Map.prototype.get` over an association list (first match). -/
def mapGet {α β : Type} [DecidableEq α] : List (α × β) → α → Option β
  | [], _ => none
  | (k, v) :: rest, a => if k = a then some v else mapGet rest a

/-- `Map.prototype.set`: replace the existing entry or append a new one. -/
def mapSet {α β : Type} [DecidableEq α] : List (α × β) → α → β → List (α × β)
  | [], a, b => [(a, b)]
  | (k, v) :: rest, a, b => if k = a then (a, b) :: rest else (k, v) :: mapSet rest a b

/-- `Map.prototype.delete`. -/
def mapDelete {α β : Type} [DecidableEq α] : List (α × β) → α → List (α × β)
  | [], _ => []
  | (k, v) :: rest, a => if k = a then mapDelete rest a else (k, v) :: mapDelete rest a

/-- Reading `ws.roomId` / `ws.role`: absent sockets carry no metadata. -/
def connGet (l : List (ConnId × Conn)) (c : ConnId) : Conn :=
  (mapGet l c).getD ⟨none, none⟩

def MAX_PER_ROOM : Nat := 2
def RATE_LIMIT_WINDOW_MS : Nat := 10000
def RATE_LIMIT_MAX : Nat := 60

/-- Whether a socket is open (`ws.readyState === WebSocket.OPEN`). -/
def isOpen (s : ServerState) (c : ConnId) : Bool :=
  s.openConns.contains c

/-- `send(ws, msg)`: a no-op unless the socket is open. -/
def send (s : ServerState) (c : ConnId) (m : SMsg) : List Output :=
  if isOpen s c then [Output.msg c m] else []

/-- `send` against a nullable socket reference. -/
def sendOpt (s : ServerState) (o : Option ConnId) (m : SMsg) : List Output :=
  match o with
  | none => []
  | some c => send s c m

/-- `[room.sender, room.receiver].filter(Boolean).length`. -/
def occCount (room : Room) : Nat :=
  (([room.sender, room.receiver]).filter Option.isSome).length

/-- `getRoom(id)`: return the room, creating an empty record on first reference. -/
def getRoom (rs : List (String × Room)) (id : String) (tnow : Nat) :
    Room × List (String × Room) :=
  match mapGet rs id with
  | some r => (r, rs)
  | none =>
    let r : Room := ⟨none, none, none, tnow⟩
    (r, mapSet rs id r)

/-- `touchRoom(id)`: refresh `touchedAt` when the room exists. -/
def touchRoom (s : ServerState) (id : String) (tnow : Nat) : ServerState :=
  match mapGet s.rooms id with
  | none => s
  | some r => { s with rooms := mapSet s.rooms id { r with touchedAt := tnow } }

/-- `cleanupSocket(ws)`, identical in both servers: clear the slot the socket
still occupies, notify the remaining peer with `peer-left`, refresh activity,
and delete the room once both slots are empty. -/
def cleanupSocket (tnow : Nat) (s : ServerState) (c : ConnId) :
    ServerState × List Output :=
  let conn := connGet s.conns c
  if truthy conn.roomId = false ∨ truthy conn.role = false then (s, [])
  else
    let rid := conn.roomId.getD ("")
    match mapGet s.rooms rid with
    | none => (s, [])
    | some room =>
      let room1 : Room := { room with
        sender := if conn.role = some ("sender") ∧ room.sender = some c then none else room.sender
        receiver := if conn.role = some ("receiver") ∧ room.receiver = some c then none else room.receiver }
      let peer := if conn.role = some ("sender") then room1.receiver else room1.sender
      let s1 : ServerState := { s with rooms := mapSet s.rooms rid room1 }
      let out := sendOpt s1 peer SMsg.peerLeft
      let s2 := touchRoom s1 rid tnow
      if room1.sender = none ∧ room1.receiver = none then
        ({ s2 with rooms := mapDelete s2.rooms rid }, out)
      else (s2, out)

/-- The `join` branch of the Deno server (`src/server-deno.js`). -/
def denoJoinMsg (tnow : Nat) (s : ServerState) (c : ConnId)
    (roomId token role : Option String) : ServerState × List Output :=
  if truthy roomId = false ∨ truthy token = false ∨ truthy role = false then
    (s, send s c (SMsg.error ("roomId, token, role required")))
  else
    let rid := roomId.getD ("")
    let tok := token.getD ("")
    let rl := role.getD ("")
    let pr := getRoom s.rooms rid tnow
    let room0 := pr.1
    let s1 : ServerState := { s with rooms := pr.2 }
    if truthy room0.token = true ∧ room0.token ≠ some tok then
      (s1, send s1 c (SMsg.error ("bad token")))
    else
      let room1 := if truthy room0.token = false then { room0 with token := some tok } else room0
      let s2 : ServerState := { s1 with rooms := mapSet s1.rooms rid room1 }
      if rl = "sender" ∧ room1.sender.isSome = true ∧ room1.sender ≠ some c then
        (s2, send s2 c (SMsg.error ("sender exists")))
      else if rl = "receiver" ∧ room1.receiver.isSome = true ∧ room1.receiver ≠ some c then
        (s2, send s2 c (SMsg.error ("receiver exists")))
      else if MAX_PER_ROOM ≤ occCount room1 ∧ ¬(room1.sender = some c ∨ room1.receiver = some c) then
        (s2, send s2 c (SMsg.error ("room full")))
      else
        let s3 : ServerState := { s2 with conns := mapSet s2.conns c ⟨some rid, some rl⟩ }
        let room2 : Room := { room1 with
          sender := if rl = "sender" then some c else room1.sender
          receiver := if rl = "receiver" then some c else room1.receiver }
        let room3 : Room := { room2 with touchedAt := tnow }
        let s4 : ServerState := { s3 with rooms := mapSet s3.rooms rid room3 }
        let outJ := send s4 c (SMsg.joined rid rl)
        let outR :=
          if room3.sender.isSome = true ∧ room3.receiver.isSome = true then
            sendOpt s4 room3.sender SMsg.ready ++ sendOpt s4 room3.receiver SMsg.ready
          else []
        (s4, outJ ++ outR)

/-- The `join` branch of the Node/ws server (identical control flow, different
error strings). -/
def wsJoinMsg (tnow : Nat) (s : ServerState) (c : ConnId)
    (roomId token role : Option String) : ServerState × List Output :=
  if truthy roomId = false ∨ truthy token = false ∨ truthy role = false then
    (s, send s c (SMsg.error ("roomId, token, role required")))
  else
    let rid := roomId.getD ("")
    let tok := token.getD ("")
    let rl := role.getD ("")
    let pr := getRoom s.rooms rid tnow
    let room0 := pr.1
    let s1 : ServerState := { s with rooms := pr.2 }
    if truthy room0.token = true ∧ room0.token ≠ some tok then
      (s1, send s1 c (SMsg.error ("Invalid token")))
    else
      let room1 := if truthy room0.token = false then { room0 with token := some tok } else room0
      let s2 : ServerState := { s1 with rooms := mapSet s1.rooms rid room1 }
      if rl = "sender" ∧ room1.sender.isSome = true ∧ room1.sender ≠ some c then
        (s2, send s2 c (SMsg.error ("Sender already present")))
      else if rl = "receiver" ∧ room1.receiver.isSome = true ∧ room1.receiver ≠ some c then
        (s2, send s2 c (SMsg.error ("Receiver already present")))
      else if MAX_PER_ROOM ≤ occCount room1 ∧ ¬(room1.sender = some c ∨ room1.receiver = some c) then
        (s2, send s2 c (SMsg.error ("Room full")))
      else
        let s3 : ServerState := { s2 with conns := mapSet s2.conns c ⟨some rid, some rl⟩ }
        let room2 : Room := { room1 with
          sender := if rl = "sender" then some c else room1.sender
          receiver := if rl = "receiver" then some c else room1.receiver }
        let room3 : Room := { room2 with touchedAt := tnow }
        let s4 : ServerState := { s3 with rooms := mapSet s3.rooms rid room3 }
        let outJ := send s4 c (SMsg.joined rid rl)
        let outR :=
          if room3.sender.isSome = true ∧ room3.receiver.isSome = true then
            sendOpt s4 room3.sender SMsg.ready ++ sendOpt s4 room3.receiver SMsg.ready
          else []
        (s4, outJ ++ outR)

/-- The `offer`/`answer`/`ice` branch of the Deno server: it looks the room up
from `ws.roomId` without any joined-check and relays through `send`, which is a
no-op when the peer slot is empty or the peer socket is not open. -/
def denoSignalMsg (tnow : Nat) (s : ServerState) (c : ConnId)
    (ty : String) (data : Option String) : ServerState × List Output :=
  let conn := connGet s.conns c
  let roomLookup :=
    match conn.roomId with
    | none => none
    | some rid => mapGet s.rooms rid
  match roomLookup with
  | none => (s, send s c (SMsg.error ("no room")))
  | some room =>
    let peer := if conn.role = some ("sender") then room.receiver else room.sender
    let s1 := touchRoom s (conn.roomId.getD ("")) tnow
    (s1, sendOpt s1 peer (SMsg.relay ty data))

/-- The `offer`/`answer`/`ice` branch of the Node/ws server: explicit
joined-check, room-missing check, and peer-open check. -/
def wsSignalMsg (tnow : Nat) (s : ServerState) (c : ConnId)
    (ty : String) (data : Option String) : ServerState × List Output :=
  let conn := connGet s.conns c
  if truthy conn.roomId = false ∨ truthy conn.role = false then
    (s, send s c (SMsg.error ("Join first")))
  else
    match mapGet s.rooms (conn.roomId.getD ("")) with
    | none => (s, send s c (SMsg.error ("Room missing")))
    | some room =>
      let target := if conn.role = some ("sender") then room.receiver else room.sender
      match target with
      | some t =>
        if isOpen s t then
          let s1 := touchRoom s (conn.roomId.getD ("")) tnow
          (s1, send s1 t (SMsg.relay ty data))
        else (s, send s c (SMsg.error ("Peer not connected")))
      | none => (s, send s c (SMsg.error ("Peer not connected")))

/-- Message dispatch of the Deno server (the `onmessage` closure in `handleSocket`),
after the size, rate and JSON-parse steps. -/
def handleSocketMsg (tnow : Nat) (s : ServerState) (c : ConnId) (m : RawMsg) :
    ServerState × List Output :=
  if m.type = some ("join") then
    denoJoinMsg tnow s c m.roomId m.token m.role
  else if m.type = some ("offer") ∨ m.type = some ("answer") ∨ m.type = some ("ice") then
    denoSignalMsg tnow s c (m.type.getD ("")) m.data
  else if m.type = some ("leave") then
    cleanupSocket tnow s c
  else
    (s, send s c (SMsg.error ("unknown type")))

/-- Message dispatch of the Node/ws server (the connection-event message
handler), after the size, rate and JSON-parse steps. -/
def wsOnMessage (tnow : Nat) (s : ServerState) (c : ConnId) (m : RawMsg) :
    ServerState × List Output :=
  if m.type = some ("join") then
    wsJoinMsg tnow s c m.roomId m.token m.role
  else if m.type = some ("offer") ∨ m.type = some ("answer") ∨ m.type = some ("ice") then
    wsSignalMsg tnow s c (m.type.getD ("")) m.data
  else if m.type = some ("leave") then
    cleanupSocket tnow s c
  else
    (s, send s c (SMsg.error ("Unknown message type")))

/-- The sliding-window computation shared by `enforceRate` (Deno) and
`enforceRateLimit` (Node): drop timestamps older than the window, append now. -/
def rateNext (hist : List Nat) (tnow : Nat) : List Nat :=
  hist.filter (fun t => tnow - RATE_LIMIT_WINDOW_MS ≤ t) ++ [tnow]

/-- The rate-limit step: returns the new window, the boolean result, and the
close effect issued when the cap is exceeded. -/
def rateStep (c : ConnId) (reason : String) (hist : List Nat) (tnow : Nat) :
    List Nat × Bool × List Output :=
  let next := rateNext hist tnow
  if RATE_LIMIT_MAX < next.length then (next, false, [Output.close c 1013 reason])
  else (next, true, [])

/-- `enforceRate(ws)` of the Deno server. -/
def enforceRate (c : ConnId) : List Nat → Nat → List Nat × Bool × List Output :=
  rateStep c ("rate limit")

/-- `enforceRateLimit(ws)` of the Node/ws server. -/
def enforceRateLimit (c : ConnId) : List Nat → Nat → List Nat × Bool × List Output :=
  rateStep c ("Rate limit exceeded")

/-- Run the rate-limit step over a sequence of arrival times, collecting each
boolean result of each step and close effects. -/
def rateRun (c : ConnId) (reason : String) : List Nat → List Nat → List (Bool × List Output)
  | _, [] => []
  | hist, t :: ts =>
    let r := rateStep c reason hist t
    (r.2.1, r.2.2) :: rateRun c reason r.1 ts

/-- The state before any connection: empty room map, no metadata, no sockets. -/
def initState : ServerState := ⟨[], [], []⟩

/-- A new socket is accepted by the transport layer. -/
def connectStep (s : ServerState) (c : ConnId) : ServerState :=
  { s with openConns := c :: s.openConns }

/-- Transport close or error: the socket stops being open, then the registered
close/error handler runs `cleanupSocket`. -/
def disconnectStep (tnow : Nat) (s : ServerState) (c : ConnId) :
    ServerState × List Output :=
  cleanupSocket tnow { s with openConns := s.openConns.erase c } c

/-- States of the Node/ws server reachable from startup by accepting sockets,
processing messages on open sockets, and disconnects. -/
inductive Reachable : ServerState → Prop
  | init : Reachable initState
  | connect (s : ServerState) (c : ConnId) : Reachable s → isOpen s c = false →
      connGet s.conns c = ⟨none, none⟩ → Reachable (connectStep s c)
  | message (s : ServerState) (tnow : Nat) (c : ConnId) (m : RawMsg) : Reachable s →
      isOpen s c = true → Reachable (wsOnMessage tnow s c m).1
  | disconnect (s : ServerState) (tnow : Nat) (c : ConnId) : Reachable s →
      Reachable (disconnectStep tnow s c).1

/-- The occupant of the slot named by a role string: the sender slot for
"sender", the receiver slot for "receiver", no slot otherwise. -/
def roleSlot (room : Room) (rl : String) : Option ConnId :=
  if rl = "sender" then room.sender else if rl = "receiver" then room.receiver else none

/-- A connection currently carries the routing pair (rid, rl): it is open and
its `roomId`/`role` fields hold exactly that pair. -/
def holdsPair (s : ServerState) (c : ConnId) (rid rl : String) : Prop :=
  isOpen s c = true ∧ connGet s.conns c = ⟨some rid, some rl⟩

instance (s : ServerState) (c : ConnId) (rid rl : String) :
    Decidable (holdsPair s c rid rl) := by
  unfold holdsPair; infer_instance

/-- A well-formed join message with token "t", used in concrete executions. -/
def cexJoin (rid rl : String) : RawMsg := ⟨some ("join"), some rid, some ("t"), some rl, none⟩

/-- A leave message, used in concrete executions. -/
def cexLeave : RawMsg := ⟨some ("leave"), none, none, none, none⟩

/-- Concrete execution of the ws server: socket 0 connects. -/
def trace1 : ServerState := connectStep initState 0

/-- Concrete execution: socket 0 joins room "r" as sender. -/
def trace2 : ServerState := (wsOnMessage 0 trace1 0 (cexJoin ("r") ("sender"))).1

/-- Concrete execution: socket 0 then sends leave (room "r" is deleted, but the
socket keeps its roomId/role fields). -/
def trace3 : ServerState := (wsOnMessage 1 trace2 0 cexLeave).1

/-- Concrete execution: a second socket 1 connects. -/
def trace4 : ServerState := connectStep trace3 1

/-- Concrete execution: socket 1 joins room "r" as sender, recreating the room;
sockets 0 and 1 now both carry the pair ("r", "sender"). -/
def trace5 : ServerState := (wsOnMessage 2 trace4 1 (cexJoin ("r") ("sender"))).1

/-- A room "r" with both slots occupied (socket 0 sender, socket 1 receiver,
token "t"); sockets 0, 1 and a third socket 2 are open. -/
def stFull : ServerState :=
  ⟨[(("r"), ⟨some 0, some 1, some ("t"), 0⟩)],
   [(0, ⟨some ("r"), some ("sender")⟩), (1, ⟨some ("r"), some ("receiver")⟩)],
   [0, 1, 2]⟩

/-- A room "r" with only the sender slot occupied by socket 0 (token "t"). -/
def stHalf : ServerState :=
  ⟨[(("r"), ⟨some 0, none, some ("t"), 0⟩)],
   [(0, ⟨some ("r"), some ("sender")⟩)],
   [0]⟩

/-- An empty registry with one open, never-joined socket 0. -/
def stOpen0 : ServerState := ⟨[], [], [0]⟩

/-- A registry holding room "r" with secret "t" and empty slots, and one open
socket 5 that has not joined. -/
def stTok : ServerState := ⟨[(("r"), ⟨none, none, some ("t"), 0⟩)], [], [5]⟩
theorem mapGet_set_self {α β : Type} [DecidableEq α] (l : List (α × β)) (a : α) (b : β) :
    mapGet (mapSet l a b) a = some b := by
  induction l with
  | nil => simp [mapGet, mapSet]
  | cons p rest ih =>
    obtain ⟨k, v⟩ := p
    by_cases h : k = a
    · simp [mapGet, mapSet, h]
    · simp [mapGet, mapSet, h, ih]

theorem mapSet_get_same {α β : Type} [DecidableEq α] (l : List (α × β)) (a : α) (b : β)
    (h : mapGet l a = some b) : mapSet l a b = l := by
  induction l with
  | nil => simp [mapGet] at h
  | cons p rest ih =>
    obtain ⟨k, v⟩ := p
    by_cases hk : k = a
    · subst hk
      simp [mapGet] at h
      simp [mapSet, h]
    · simp [mapGet, hk] at h
      simp [mapSet, hk, ih h]

theorem mapSet_mapSet {α β : Type} [DecidableEq α] (l : List (α × β)) (a : α) (b b2 : β) :
    mapSet (mapSet l a b) a b2 = mapSet l a b2 := by
  induction l with
  | nil => simp [mapSet]
  | cons p rest ih =>
    obtain ⟨k, v⟩ := p
    by_cases hk : k = a
    · simp [mapSet, hk]
    · simp [mapSet, hk, ih]

theorem truthy_some_true {x : String} (h : x ≠ "") : truthy (some x) = true := by
  simp [truthy, h]

theorem handleSocketMsg_join (tnow : Nat) (s : ServerState) (c : ConnId)
    (rid tok rl d : Option String) :
    handleSocketMsg tnow s c ⟨some ("join"), rid, tok, rl, d⟩ = denoJoinMsg tnow s c rid tok rl := rfl

theorem wsOnMessage_join (tnow : Nat) (s : ServerState) (c : ConnId)
    (rid tok rl d : Option String) :
    wsOnMessage tnow s c ⟨some ("join"), rid, tok, rl, d⟩ = wsJoinMsg tnow s c rid tok rl := rfl

theorem handleSocketMsg_leave (tnow : Nat) (s : ServerState) (c : ConnId)
    (rid tok rl d : Option String) :
    handleSocketMsg tnow s c ⟨some ("leave"), rid, tok, rl, d⟩ = cleanupSocket tnow s c := rfl

theorem wsOnMessage_leave (tnow : Nat) (s : ServerState) (c : ConnId)
    (rid tok rl d : Option String) :
    wsOnMessage tnow s c ⟨some ("leave"), rid, tok, rl, d⟩ = cleanupSocket tnow s c := rfl

theorem denoJoin_slot_taken
    (tnow : Nat) (s : ServerState) (c a b : ConnId)
    (rid tok rl : String) (room : Room)
    (hrid0 : rid ≠ "") (htok0 : tok ≠ "")
    (hrole : rl = "sender" ∨ rl = "receiver")
    (hroom : mapGet s.rooms rid = some room)
    (hsec : room.token = some tok)
    (hsender : room.sender = some a) (ha : a ≠ c)
    (hreceiver : room.receiver = some b) (hb : b ≠ c)
    (hopen : isOpen s c = true) :
    denoJoinMsg tnow s c (some rid) (some tok) (some rl) =
      (s, [Output.msg c (SMsg.error (if rl = "sender" then "sender exists" else "receiver exists"))]) := by
  have htr : truthy room.token = true := by rw [hsec]; exact truthy_some_true htok0
  unfold denoJoinMsg
  rcases hrole with h | h <;> subst h <;>
    simp [truthy_some_true hrid0, truthy_some_true htok0, truthy_some_true, getRoom, hroom,
      htr, hsec, hsender, hreceiver, ha, hb, send, hopen, mapSet_get_same s.rooms rid room hroom]

theorem wsJoin_slot_taken
    (tnow : Nat) (s : ServerState) (c a b : ConnId)
    (rid tok rl : String) (room : Room)
    (hrid0 : rid ≠ "") (htok0 : tok ≠ "")
    (hrole : rl = "sender" ∨ rl = "receiver")
    (hroom : mapGet s.rooms rid = some room)
    (hsec : room.token = some tok)
    (hsender : room.sender = some a) (ha : a ≠ c)
    (hreceiver : room.receiver = some b) (hb : b ≠ c)
    (hopen : isOpen s c = true) :
    wsJoinMsg tnow s c (some rid) (some tok) (some rl) =
      (s, [Output.msg c (SMsg.error
        (if rl = "sender" then "Sender already present" else "Receiver already present"))]) := by
  have htr : truthy room.token = true := by rw [hsec]; exact truthy_some_true htok0
  unfold wsJoinMsg
  rcases hrole with h | h <;> subst h <;>
    simp [truthy_some_true hrid0, truthy_some_true htok0, truthy_some_true, getRoom, hroom,
      htr, hsec, hsender, hreceiver, ha, hb, send, hopen, mapSet_get_same s.rooms rid room hroom]

theorem denoJoin_bad_token
    (tnow : Nat) (s : ServerState) (c : ConnId)
    (rid tok rl : String) (room : Room)
    (hrid0 : rid ≠ "") (htok0 : tok ≠ "") (hrl0 : rl ≠ "")
    (hroom : mapGet s.rooms rid = some room)
    (hsec : truthy room.token = true)
    (hdiff : room.token ≠ some tok)
    (hopen : isOpen s c = true) :
    denoJoinMsg tnow s c (some rid) (some tok) (some rl) =
      (s, [Output.msg c (SMsg.error ("bad token"))]) := by
  unfold denoJoinMsg
  simp [truthy_some_true hrid0, truthy_some_true htok0, truthy_some_true hrl0,
    getRoom, hroom, hsec, hdiff, send, hopen]

theorem wsJoin_bad_token
    (tnow : Nat) (s : ServerState) (c : ConnId)
    (rid tok rl : String) (room : Room)
    (hrid0 : rid ≠ "") (htok0 : tok ≠ "") (hrl0 : rl ≠ "")
    (hroom : mapGet s.rooms rid = some room)
    (hsec : truthy room.token = true)
    (hdiff : room.token ≠ some tok)
    (hopen : isOpen s c = true) :
    wsJoinMsg tnow s c (some rid) (some tok) (some rl) =
      (s, [Output.msg c (SMsg.error ("Invalid token"))]) := by
  unfold wsJoinMsg
  simp [truthy_some_true hrid0, truthy_some_true htok0, truthy_some_true hrl0,
    getRoom, hroom, hsec, hdiff, send, hopen]

theorem wsJoin_rejoin
    (tnow : Nat) (s : ServerState) (c : ConnId)
    (rid tok rl : String) (room : Room)
    (hrid0 : rid ≠ "") (htok0 : tok ≠ "")
    (hroom : mapGet s.rooms rid = some room)
    (hsec : room.token = some tok)
    (hconn : mapGet s.conns c = some ⟨some rid, some rl⟩)
    (hocc : (rl = "sender" ∧ room.sender = some c) ∨ (rl = "receiver" ∧ room.receiver = some c)) :
    wsJoinMsg tnow s c (some rid) (some tok) (some rl) =
      ({ s with rooms := mapSet s.rooms rid { room with touchedAt := tnow } },
       send s c (SMsg.joined rid rl) ++
         (if room.sender.isSome = true ∧ room.receiver.isSome = true then
            sendOpt s room.sender SMsg.ready ++ sendOpt s room.receiver SMsg.ready
          else [])) := by
  have htr : truthy room.token = true := by rw [hsec]; exact truthy_some_true htok0
  unfold wsJoinMsg
  rcases hocc with ⟨h, hs⟩ | ⟨h, hs⟩ <;> subst h <;>
    simp [truthy_some_true hrid0, truthy_some_true htok0, truthy_some_true, getRoom, hroom,
      htr, hsec, hs, send, isOpen, sendOpt, mapSet_get_same s.conns c ⟨some rid, _⟩ hconn,
      mapSet_get_same s.rooms rid room hroom, mapSet_mapSet]

theorem denoJoin_rejoin
    (tnow : Nat) (s : ServerState) (c : ConnId)
    (rid tok rl : String) (room : Room)
    (hrid0 : rid ≠ "") (htok0 : tok ≠ "")
    (hroom : mapGet s.rooms rid = some room)
    (hsec : room.token = some tok)
    (hconn : mapGet s.conns c = some ⟨some rid, some rl⟩)
    (hocc : (rl = "sender" ∧ room.sender = some c) ∨ (rl = "receiver" ∧ room.receiver = some c)) :
    denoJoinMsg tnow s c (some rid) (some tok) (some rl) =
      ({ s with rooms := mapSet s.rooms rid { room with touchedAt := tnow } },
       send s c (SMsg.joined rid rl) ++
         (if room.sender.isSome = true ∧ room.receiver.isSome = true then
            sendOpt s room.sender SMsg.ready ++ sendOpt s room.receiver SMsg.ready
          else [])) := by
  have htr : truthy room.token = true := by rw [hsec]; exact truthy_some_true htok0
  unfold denoJoinMsg
  rcases hocc with ⟨h, hs⟩ | ⟨h, hs⟩ <;> subst h <;>
    simp [truthy_some_true hrid0, truthy_some_true htok0, truthy_some_true, getRoom, hroom,
      htr, hsec, hs, send, isOpen, sendOpt, mapSet_get_same s.conns c ⟨some rid, _⟩ hconn,
      mapSet_get_same s.rooms rid room hroom, mapSet_mapSet]

theorem wsJoin_new_room_other_role
    (tnow : Nat) (s : ServerState) (c : ConnId)
    (rid tok rl : String)
    (hrid0 : rid ≠ "") (htok0 : tok ≠ "") (hrl0 : rl ≠ "")
    (hnots : rl ≠ "sender") (hnotr : rl ≠ "receiver")
    (hroom : mapGet s.rooms rid = none) :
    wsJoinMsg tnow s c (some rid) (some tok) (some rl) =
      ({ s with rooms := mapSet s.rooms rid ⟨none, none, some tok, tnow⟩,
                conns := mapSet s.conns c ⟨some rid, some rl⟩ },
       send s c (SMsg.joined rid rl)) := by
  unfold wsJoinMsg
  simp [truthy_some_true hrid0, truthy_some_true htok0, truthy_some_true hrl0,
    hrid0, htok0, hrl0, getRoom, hroom, truthy, hnots, hnotr, occCount, MAX_PER_ROOM,
    mapSet_mapSet, send, isOpen]

theorem denoJoin_new_room_other_role
    (tnow : Nat) (s : ServerState) (c : ConnId)
    (rid tok rl : String)
    (hrid0 : rid ≠ "") (htok0 : tok ≠ "") (hrl0 : rl ≠ "")
    (hnots : rl ≠ "sender") (hnotr : rl ≠ "receiver")
    (hroom : mapGet s.rooms rid = none) :
    denoJoinMsg tnow s c (some rid) (some tok) (some rl) =
      ({ s with rooms := mapSet s.rooms rid ⟨none, none, some tok, tnow⟩,
                conns := mapSet s.conns c ⟨some rid, some rl⟩ },
       send s c (SMsg.joined rid rl)) := by
  unfold denoJoinMsg
  simp [truthy_some_true hrid0, truthy_some_true htok0, truthy_some_true hrl0,
    hrid0, htok0, hrl0, getRoom, hroom, truthy, hnots, hnotr, occCount, MAX_PER_ROOM,
    mapSet_mapSet, send, isOpen]

theorem touchRoom_conns (s : ServerState) (id : String) (tnow : Nat) :
    (touchRoom s id tnow).conns = s.conns := by
  unfold touchRoom; split <;> rfl

theorem touchRoom_openConns (s : ServerState) (id : String) (tnow : Nat) :
    (touchRoom s id tnow).openConns = s.openConns := by
  unfold touchRoom; split <;> rfl

theorem cleanupSocket_conns (tnow : Nat) (s : ServerState) (c : ConnId) :
    ((cleanupSocket tnow s c).1).conns = s.conns := by
  simp only [cleanupSocket]
  repeat' split
  all_goals simp [touchRoom_conns]

theorem cleanupSocket_openConns (tnow : Nat) (s : ServerState) (c : ConnId) :
    ((cleanupSocket tnow s c).1).openConns = s.openConns := by
  simp only [cleanupSocket]
  repeat' split
  all_goals simp [touchRoom_openConns]

theorem wsSignal_unjoined (tnow : Nat) (s : ServerState) (c : ConnId)
    (ty : String) (d : Option String)
    (hconn : connGet s.conns c = ⟨none, none⟩) :
    wsSignalMsg tnow s c ty d = (s, send s c (SMsg.error ("Join first"))) := by
  unfold wsSignalMsg
  simp [hconn, truthy]

theorem denoSignal_unjoined (tnow : Nat) (s : ServerState) (c : ConnId)
    (ty : String) (d : Option String)
    (hconn : connGet s.conns c = ⟨none, none⟩) :
    denoSignalMsg tnow s c ty d = (s, send s c (SMsg.error ("no room"))) := by
  unfold denoSignalMsg
  simp [hconn]

theorem wsSignal_no_peer (tnow : Nat) (s : ServerState) (c : ConnId)
    (ty : String) (d : Option String) (rid rl : String) (room : Room)
    (hconn : connGet s.conns c = ⟨some rid, some rl⟩)
    (hrid0 : rid ≠ "") (hrl0 : rl ≠ "")
    (hroom : mapGet s.rooms rid = some room)
    (hpeer : (if rl = "sender" then room.receiver else room.sender) = none ∨
      ∃ p, (if rl = "sender" then room.receiver else room.sender) = some p ∧ isOpen s p = false) :
    wsSignalMsg tnow s c ty d = (s, send s c (SMsg.error ("Peer not connected"))) := by
  unfold wsSignalMsg
  rcases hpeer with hp | ⟨p, hp, hpo⟩ <;>
  · by_cases h : rl = "sender" <;>
      simp_all [truthy_some_true, hroom, send]

theorem denoSignal_dropped (tnow : Nat) (s : ServerState) (c : ConnId)
    (ty : String) (d : Option String) (rid rl : String) (room : Room)
    (hconn : connGet s.conns c = ⟨some rid, some rl⟩)
    (hroom : mapGet s.rooms rid = some room)
    (hpeer : (if rl = "sender" then room.receiver else room.sender) = none ∨
      ∃ p, (if rl = "sender" then room.receiver else room.sender) = some p ∧ isOpen s p = false) :
    denoSignalMsg tnow s c ty d = (touchRoom s rid tnow, []) := by
  unfold denoSignalMsg
  rcases hpeer with hp | ⟨p, hp, hpo⟩ <;>
  · by_cases h : rl = "sender" <;>
      simp_all [hroom, sendOpt, send, isOpen, touchRoom_openConns]

theorem connGet_set_self (l : List (ConnId × Conn)) (c : ConnId) (v : Conn) :
    connGet (mapSet l c v) c = v := by
  unfold connGet; rw [mapGet_set_self]; rfl

theorem truthy_exists {o : Option String} (h : truthy o = true) :
    ∃ x, o = some x ∧ x ≠ "" := by
  cases o with
  | none => simp [truthy] at h
  | some s =>
    refine ⟨s, rfl, ?_⟩
    simp [truthy] at h
    exact h

theorem wsJoin_result_conns (tnow : Nat) (s : ServerState) (c : ConnId)
    (roomId token role : Option String) :
    ((wsJoinMsg tnow s c roomId token role).1).conns = s.conns ∨
    (truthy roomId = true ∧ truthy role = true ∧
     ((wsJoinMsg tnow s c roomId token role).1).conns =
       mapSet s.conns c ⟨some (roomId.getD ("")), some (role.getD (""))⟩) := by
  by_cases h0 : truthy roomId = false ∨ truthy token = false ∨ truthy role = false
  · left; simp only [wsJoinMsg, if_pos h0]
  · have h1 : truthy roomId = true := by
      cases hb : truthy roomId with
      | false => exact absurd (Or.inl hb) h0
      | true => rfl
    have h3 : truthy role = true := by
      cases hb : truthy role with
      | false => exact absurd (Or.inr (Or.inr hb)) h0
      | true => rfl
    simp only [wsJoinMsg, if_neg h0]
    repeat' split
    all_goals try (left; rfl)
    all_goals exact Or.inr ⟨h1, h3, rfl⟩

theorem denoJoin_result_conns (tnow : Nat) (s : ServerState) (c : ConnId)
    (roomId token role : Option String) :
    ((denoJoinMsg tnow s c roomId token role).1).conns = s.conns ∨
    (truthy roomId = true ∧ truthy role = true ∧
     ((denoJoinMsg tnow s c roomId token role).1).conns =
       mapSet s.conns c ⟨some (roomId.getD ("")), some (role.getD (""))⟩) := by
  by_cases h0 : truthy roomId = false ∨ truthy token = false ∨ truthy role = false
  · left; simp only [denoJoinMsg, if_pos h0]
  · have h1 : truthy roomId = true := by
      cases hb : truthy roomId with
      | false => exact absurd (Or.inl hb) h0
      | true => rfl
    have h3 : truthy role = true := by
      cases hb : truthy role with
      | false => exact absurd (Or.inr (Or.inr hb)) h0
      | true => rfl
    simp only [denoJoinMsg, if_neg h0]
    repeat' split
    all_goals try (left; rfl)
    all_goals exact Or.inr ⟨h1, h3, rfl⟩

theorem mem_send {s : ServerState} {c : ConnId} {m : SMsg} {x : Output}
    (h : x ∈ send s c m) : x = Output.msg c m := by
  unfold send at h
  split at h
  · simpa using h
  · simp at h

theorem mem_sendOpt {s : ServerState} {o : Option ConnId} {m : SMsg} {x : Output}
    (h : x ∈ sendOpt s o m) : ∃ p, o = some p ∧ x = Output.msg p m := by
  unfold sendOpt at h
  cases o with
  | none => simp at h
  | some p => exact ⟨p, rfl, mem_send h⟩

theorem wsJoin_ready_occupant (tnow : Nat) (s : ServerState) (c : ConnId)
    (roomId token role : Option String) (st : ServerState) (out : List Output) (d : ConnId)
    (hres : wsJoinMsg tnow s c roomId token role = (st, out))
    (h : Output.msg d SMsg.ready ∈ out) :
    ∃ rid room, mapGet st.rooms rid = some room ∧
      (room.sender = some d ∨ room.receiver = some d) := by
  simp only [wsJoinMsg] at hres
  repeat' split at hres
  all_goals obtain ⟨rfl, rfl⟩ := Prod.mk.injEq .. ▸ hres
  all_goals try (exact absurd (mem_send h) (by simp))
  all_goals rw [List.mem_append] at h
  all_goals rcases h with h2 | h2
  all_goals try (exact absurd (mem_send h2) (by simp))
  all_goals try (exact absurd h2 (List.not_mem_nil _))
  all_goals rw [List.mem_append] at h2
  all_goals rcases h2 with h3 | h3
  all_goals obtain ⟨p, hp, hx⟩ := mem_sendOpt h3
  all_goals have hd : d = p := by simpa using hx
  all_goals subst hd
  all_goals try (exact ⟨_, _, mapGet_set_self _ _ _, Or.inl hp⟩)
  all_goals exact ⟨_, _, mapGet_set_self _ _ _, Or.inr hp⟩

theorem denoJoin_ready_occupant (tnow : Nat) (s : ServerState) (c : ConnId)
    (roomId token role : Option String) (st : ServerState) (out : List Output) (d : ConnId)
    (hres : denoJoinMsg tnow s c roomId token role = (st, out))
    (h : Output.msg d SMsg.ready ∈ out) :
    ∃ rid room, mapGet st.rooms rid = some room ∧
      (room.sender = some d ∨ room.receiver = some d) := by
  simp only [denoJoinMsg] at hres
  repeat' split at hres
  all_goals obtain ⟨rfl, rfl⟩ := Prod.mk.injEq .. ▸ hres
  all_goals try (exact absurd (mem_send h) (by simp))
  all_goals rw [List.mem_append] at h
  all_goals rcases h with h2 | h2
  all_goals try (exact absurd (mem_send h2) (by simp))
  all_goals try (exact absurd h2 (List.not_mem_nil _))
  all_goals rw [List.mem_append] at h2
  all_goals rcases h2 with h3 | h3
  all_goals obtain ⟨p, hp, hx⟩ := mem_sendOpt h3
  all_goals have hd : d = p := by simpa using hx
  all_goals subst hd
  all_goals try (exact ⟨_, _, mapGet_set_self _ _ _, Or.inl hp⟩)
  all_goals exact ⟨_, _, mapGet_set_self _ _ _, Or.inr hp⟩

theorem wsSignal_no_ready (tnow : Nat) (s : ServerState) (c : ConnId)
    (ty : String) (d0 : Option String) (st : ServerState) (out : List Output) (d : ConnId)
    (hres : wsSignalMsg tnow s c ty d0 = (st, out))
    (h : Output.msg d SMsg.ready ∈ out) : False := by
  simp only [wsSignalMsg] at hres
  repeat' split at hres
  all_goals obtain ⟨rfl, rfl⟩ := Prod.mk.injEq .. ▸ hres
  all_goals exact absurd (mem_send h) (by simp)

theorem denoSignal_no_ready (tnow : Nat) (s : ServerState) (c : ConnId)
    (ty : String) (d0 : Option String) (st : ServerState) (out : List Output) (d : ConnId)
    (hres : denoSignalMsg tnow s c ty d0 = (st, out))
    (h : Output.msg d SMsg.ready ∈ out) : False := by
  simp only [denoSignalMsg] at hres
  repeat' split at hres
  all_goals obtain ⟨rfl, rfl⟩ := Prod.mk.injEq .. ▸ hres
  all_goals try (exact absurd (mem_send h) (by simp))
  all_goals obtain ⟨p, hp, hx⟩ := mem_sendOpt h
  all_goals exact absurd hx (by simp)

theorem cleanupSocket_no_ready (tnow : Nat) (s : ServerState) (c : ConnId)
    (st : ServerState) (out : List Output) (d : ConnId)
    (hres : cleanupSocket tnow s c = (st, out))
    (h : Output.msg d SMsg.ready ∈ out) : False := by
  simp only [cleanupSocket] at hres
  repeat' split at hres
  all_goals obtain ⟨rfl, rfl⟩ := Prod.mk.injEq .. ▸ hres
  all_goals try (exact absurd h (List.not_mem_nil _))
  all_goals obtain ⟨p, hp, hx⟩ := mem_sendOpt h
  all_goals exact absurd hx (by simp)

theorem wsOnMessage_ready_occupant (tnow : Nat) (s : ServerState) (c : ConnId)
    (m : RawMsg) (st : ServerState) (out : List Output) (d : ConnId)
    (hres : wsOnMessage tnow s c m = (st, out))
    (h : Output.msg d SMsg.ready ∈ out) :
    ∃ rid room, mapGet st.rooms rid = some room ∧
      (room.sender = some d ∨ room.receiver = some d) := by
  simp only [wsOnMessage] at hres
  split at hres
  · exact wsJoin_ready_occupant _ _ _ _ _ _ _ _ _ hres h
  · split at hres
    · exact absurd (wsSignal_no_ready _ _ _ _ _ _ _ _ hres h) (by simp)
    · split at hres
      · exact absurd (cleanupSocket_no_ready _ _ _ _ _ _ hres h) (by simp)
      · obtain ⟨rfl, rfl⟩ := Prod.mk.injEq .. ▸ hres
        exact absurd (mem_send h) (by simp)

theorem handleSocketMsg_ready_occupant (tnow : Nat) (s : ServerState) (c : ConnId)
    (m : RawMsg) (st : ServerState) (out : List Output) (d : ConnId)
    (hres : handleSocketMsg tnow s c m = (st, out))
    (h : Output.msg d SMsg.ready ∈ out) :
    ∃ rid room, mapGet st.rooms rid = some room ∧
      (room.sender = some d ∨ room.receiver = some d) := by
  simp only [handleSocketMsg] at hres
  split at hres
  · exact denoJoin_ready_occupant _ _ _ _ _ _ _ _ _ hres h
  · split at hres
    · exact absurd (denoSignal_no_ready _ _ _ _ _ _ _ _ hres h) (by simp)
    · split at hres
      · exact absurd (cleanupSocket_no_ready _ _ _ _ _ _ hres h) (by simp)
      · obtain ⟨rfl, rfl⟩ := Prod.mk.injEq .. ▸ hres
        exact absurd (mem_send h) (by simp)

theorem rateRun_window (c : ConnId) (reason : String) (l : List Nat) :
    ∀ (hist : List Nat),
      (∀ x ∈ hist, ∀ t ∈ l, t ≤ x + RATE_LIMIT_WINDOW_MS) →
      (∀ u ∈ l, ∀ t ∈ l, t ≤ u + RATE_LIMIT_WINDOW_MS) →
      rateRun c reason hist l =
        (List.range l.length).map (fun i =>
          if hist.length + i + 1 ≤ RATE_LIMIT_MAX then (true, ([] : List Output))
          else (false, [Output.close c 1013 reason])) := by
  induction l with
  | nil => intro hist h1 h2; simp [rateRun]
  | cons t ts ih =>
    intro hist h1 h2
    have hfil : hist.filter (fun x => decide (t - RATE_LIMIT_WINDOW_MS ≤ x)) = hist := by
      apply List.filter_eq_self.mpr
      intro x hx
      simp only [decide_eq_true_eq]
      have := h1 x hx t (by simp)
      omega
    have hA : ∀ x ∈ hist ++ [t], ∀ t2 ∈ ts, t2 ≤ x + RATE_LIMIT_WINDOW_MS := by
      intro x hx t2 ht2
      rcases List.mem_append.mp hx with hx | hx
      · exact h1 x hx t2 (List.mem_cons_of_mem _ ht2)
      · have hx2 : x = t := by simpa using hx
        subst hx2
        exact h2 x (List.mem_cons_self _ _) t2 (List.mem_cons_of_mem _ ht2)
    have hB : ∀ u ∈ ts, ∀ t2 ∈ ts, t2 ≤ u + RATE_LIMIT_WINDOW_MS := by
      intro u hu t2 ht2
      exact h2 u (List.mem_cons_of_mem _ hu) t2 (List.mem_cons_of_mem _ ht2)
    simp only [rateRun, rateStep, rateNext, hfil]
    by_cases hc : RATE_LIMIT_MAX < (hist ++ [t]).length
    · rw [if_pos hc]
      dsimp only
      rw [ih (hist ++ [t]) hA hB]
      rw [List.length_cons, List.range_succ_eq_map, List.map_cons, List.map_map]
      rw [if_neg (by simp only [List.length_append, List.length_singleton] at hc ⊢; omega)]
      congr 1
      apply List.map_congr_left
      intro i hi
      simp only [Function.comp]
      exact if_congr (by simp only [List.length_append, List.length_singleton]; omega) rfl rfl
    · rw [if_neg hc]
      dsimp only
      rw [ih (hist ++ [t]) hA hB]
      rw [List.length_cons, List.range_succ_eq_map, List.map_cons, List.map_map]
      rw [if_pos (by simp only [List.length_append, List.length_singleton] at hc ⊢; omega)]
      congr 1
      apply List.map_congr_left
      intro i hi
      simp only [Function.comp]
      exact if_congr (by simp only [List.length_append, List.length_singleton]; omega) rfl rfl

theorem rateRun_gap (c : ConnId) (reason : String) (ts : List Nat) :
    ∀ (t0 : Nat), List.Chain (fun a b => a + RATE_LIMIT_WINDOW_MS < b) t0 ts →
    rateRun c reason [t0] ts = List.replicate ts.length (true, []) := by
  induction ts with
  | nil => intro t0 hch; simp [rateRun]
  | cons t ts ih =>
    intro t0 hch
    rcases hch with _ | ⟨h, hch2⟩
    have hp : decide (t - RATE_LIMIT_WINDOW_MS ≤ t0) = false :=
      decide_eq_false_iff_not.mpr (by unfold RATE_LIMIT_WINDOW_MS at h ⊢; omega)
    have hfil : List.filter (fun x => decide (t - RATE_LIMIT_WINDOW_MS ≤ x)) [t0] = [] := by
      rw [List.filter_cons, hp]
      simp
    simp only [rateRun, rateStep, rateNext, hfil, List.nil_append]
    rw [if_neg (by simp only [List.length_singleton, RATE_LIMIT_MAX]; omega)]
    dsimp only
    simp only [List.length_cons, List.replicate_succ]
    exact congrArg _ (ih t hch2)

theorem rate_61_window (c : ConnId) (reason : String) (l : List Nat)
    (h61 : l.length = 61)
    (hwin : ∀ u ∈ l, ∀ t ∈ l, t ≤ u + RATE_LIMIT_WINDOW_MS) :
    rateRun c reason [] l =
      List.replicate 60 (true, []) ++ [(false, [Output.close c 1013 reason])] := by
  have hrw := rateRun_window c reason l [] (by simp) hwin
  rw [hrw, h61]
  rfl

theorem rate_spaced_ok (c : ConnId) (reason : String) (l : List Nat)
    (hch : List.Chain' (fun a b => a + RATE_LIMIT_WINDOW_MS < b) l) :
    rateRun c reason [] l = List.replicate l.length (true, []) := by
  cases l with
  | nil => simp [rateRun]
  | cons t0 ts =>
    have hch2 : List.Chain (fun a b => a + RATE_LIMIT_WINDOW_MS < b) t0 ts := hch
    simp only [rateRun, rateStep, rateNext, List.filter_nil, List.nil_append]
    rw [if_neg (by simp only [List.length_singleton, RATE_LIMIT_MAX]; omega)]
    dsimp only
    simp only [List.length_cons, List.replicate_succ]
    exact congrArg _ (rateRun_gap c reason ts t0 hch2)

theorem trace2_reach : Reachable trace2 :=
  Reachable.message trace1 0 0 _
    (Reachable.connect initState 0 Reachable.init (by decide) (by decide)) (by decide)

theorem trace5_reach : Reachable trace5 :=
  Reachable.message trace4 2 1 _
    (Reachable.connect trace3 1
      (Reachable.message trace2 1 0 _ trace2_reach (by decide))
      (by decide) (by decide))
    (by decide)

theorem wsSignal_conns (tnow : Nat) (s : ServerState) (c : ConnId)
    (ty : String) (d : Option String) :
    ((wsSignalMsg tnow s c ty d).1).conns = s.conns := by
  simp only [wsSignalMsg]
  repeat' split
  all_goals simp [touchRoom_conns]

theorem denoSignal_conns (tnow : Nat) (s : ServerState) (c : ConnId)
    (ty : String) (d : Option String) :
    ((denoSignalMsg tnow s c ty d).1).conns = s.conns := by
  simp only [denoSignalMsg]
  repeat' split
  all_goals simp [touchRoom_conns]

theorem handleSocketMsg_signal (tnow : Nat) (s : ServerState) (c : ConnId)
    (ty : String) (rid tok rl d : Option String)
    (hty : ty = "offer" ∨ ty = "answer" ∨ ty = "ice") :
    handleSocketMsg tnow s c ⟨some ty, rid, tok, rl, d⟩ = denoSignalMsg tnow s c ty d := by
  rcases hty with h | h | h <;> subst h <;> rfl

theorem wsOnMessage_signal (tnow : Nat) (s : ServerState) (c : ConnId)
    (ty : String) (rid tok rl d : Option String)
    (hty : ty = "offer" ∨ ty = "answer" ∨ ty = "ice") :
    wsOnMessage tnow s c ⟨some ty, rid, tok, rl, d⟩ = wsSignalMsg tnow s c ty d := by
  rcases hty with h | h | h <;> subst h <;> rfl

theorem wsOnMessage_binding (tnow : Nat) (s : ServerState) (c : ConnId) (m : RawMsg) :
    connGet ((wsOnMessage tnow s c m).1).conns c = connGet s.conns c ∨
    (m.type = some ("join") ∧ ∃ rid rl, m.roomId = some rid ∧ m.role = some rl ∧
      connGet ((wsOnMessage tnow s c m).1).conns c = ⟨some rid, some rl⟩) := by
  simp only [wsOnMessage]
  split
  · rcases wsJoin_result_conns tnow s c m.roomId m.token m.role with h | ⟨h1, h3, heq⟩
    · left; rw [h]
    · right
      obtain ⟨rid, hrid, hrid0⟩ := truthy_exists h1
      obtain ⟨rl, hrl, hrl0⟩ := truthy_exists h3
      refine ⟨by assumption, rid, rl, hrid, hrl, ?_⟩
      rw [heq, connGet_set_self, hrid, hrl]
      simp
  · split
    · left; rw [wsSignal_conns]
    · split
      · left; rw [cleanupSocket_conns]
      · left; rfl

theorem handleSocketMsg_binding (tnow : Nat) (s : ServerState) (c : ConnId) (m : RawMsg) :
    connGet ((handleSocketMsg tnow s c m).1).conns c = connGet s.conns c ∨
    (m.type = some ("join") ∧ ∃ rid rl, m.roomId = some rid ∧ m.role = some rl ∧
      connGet ((handleSocketMsg tnow s c m).1).conns c = ⟨some rid, some rl⟩) := by
  simp only [handleSocketMsg]
  split
  · rcases denoJoin_result_conns tnow s c m.roomId m.token m.role with h | ⟨h1, h3, heq⟩
    · left; rw [h]
    · right
      obtain ⟨rid, hrid, hrid0⟩ := truthy_exists h1
      obtain ⟨rl, hrl, hrl0⟩ := truthy_exists h3
      refine ⟨by assumption, rid, rl, hrid, hrl, ?_⟩
      rw [heq, connGet_set_self, hrid, hrl]
      simp
  · split
    · left; rw [denoSignal_conns]
    · split
      · left; rw [cleanupSocket_conns]
      · left; rfl

/-- Claim C1, counterexample: the claim also asserts that no two distinct
connections simultaneously hold the same (roomId, role) pair, over the
binding fields of the connections. This is false: a connection that sends
leave keeps its roomId/role fields, so after another connection joins the
recreated room with the same role, two open connections carry the same
pair. The quantified statement is refuted at the concrete reachable state
trace5. -/
theorem C1_counterexample :
    ¬ (∀ s : ServerState, Reachable s →
        (∀ rid room, mapGet s.rooms rid = some room → occCount room ≤ 2) ∧
        (∀ c1 c2 rid rl, holdsPair s c1 rid rl → holdsPair s c2 rid rl → c1 = c2)) := by
  intro hclaim
  have h := (hclaim trace5 trace5_reach).2 0 1 ("r") ("sender") (by decide) (by decide)
  exact absurd h (by decide)

/-- Claim C1, amended: in every reachable state of the server, every room in
the registry has at most one connection per role slot and an occupied-slot
count of at most 2; uniqueness of slot occupancy holds per (roomId, role),
but uniqueness of the roomId/role fields across connections does not. -/
theorem C1_theorem : ∀ s : ServerState, Reachable s →
    (∀ rid room, mapGet s.rooms rid = some room → occCount room ≤ 2) ∧
    (∀ rid rl c1 c2 room, mapGet s.rooms rid = some room →
      roleSlot room rl = some c1 → roleSlot room rl = some c2 → c1 = c2) := by
  intro s hs
  constructor
  · intro rid room hroom
    unfold occCount
    exact le_trans (List.length_filter_le _ _) (by simp)
  · intro rid rl c1 c2 room hroom h1 h2
    rw [h1] at h2
    exact Option.some.inj h2

/-- Witness for the amended claim C1, at the nonempty reachable state trace5. -/
theorem C1_witness :
    (∀ rid room, mapGet trace5.rooms rid = some room → occCount room ≤ 2) ∧
    (∀ rid rl c1 c2 room, mapGet trace5.rooms rid = some room →
      roleSlot room rl = some c1 → roleSlot room rl = some c2 → c1 = c2) :=
  C1_theorem trace5 trace5_reach

/-- Claim C2: a join whose token differs from the established room secret is
answered with an error envelope ("bad token" on the Deno server, "Invalid
token" on the ws server) and the whole server state is unchanged. -/
theorem C2_theorem (tnow : Nat) (s : ServerState) (c : ConnId)
    (rid tok rl : String) (d : Option String) (room : Room)
    (hrid0 : rid ≠ "") (htok0 : tok ≠ "") (hrl0 : rl ≠ "")
    (hroom : mapGet s.rooms rid = some room)
    (hsec : truthy room.token = true)
    (hdiff : room.token ≠ some tok)
    (hopen : isOpen s c = true) :
    handleSocketMsg tnow s c ⟨some ("join"), some rid, some tok, some rl, d⟩ =
      (s, [Output.msg c (SMsg.error ("bad token"))]) ∧
    wsOnMessage tnow s c ⟨some ("join"), some rid, some tok, some rl, d⟩ =
      (s, [Output.msg c (SMsg.error ("Invalid token"))]) := by
  constructor
  · rw [handleSocketMsg_join]
    have h := denoJoin_bad_token tnow s c rid tok rl room hrid0 htok0 hrl0 hroom hsec hdiff hopen
    exact h
  · rw [wsOnMessage_join]
    exact wsJoin_bad_token tnow s c rid tok rl room hrid0 htok0 hrl0 hroom hsec hdiff hopen

/-- Witness for claim C2: socket 5 joins room "r" (secret "t") with token "x". -/
theorem C2_witness :
    handleSocketMsg 0 stTok 5 ⟨some ("join"), some ("r"), some ("x"), some ("sender"), none⟩ =
      (stTok, [Output.msg 5 (SMsg.error ("bad token"))]) ∧
    wsOnMessage 0 stTok 5 ⟨some ("join"), some ("r"), some ("x"), some ("sender"), none⟩ =
      (stTok, [Output.msg 5 (SMsg.error ("Invalid token"))]) :=
  C2_theorem 0 stTok 5 ("r") ("x") ("sender") none ⟨none, none, some ("t"), 0⟩
    (by decide) (by decide) (by decide) (by decide) (by decide) (by decide) (by decide)

/-- Claim C3, counterexample: the claim asserts a connection is never rebound
after its first successful join. In fact a later join overwrites the
binding: at the reachable state trace2, socket 0 is bound to ("r", "sender"),
yet a join for room "r2" as receiver succeeds and rebinds it. -/
theorem C3_counterexample :
    ¬ (∀ s : ServerState, Reachable s → ∀ c rid rl,
        connGet s.conns c = ⟨some rid, some rl⟩ →
        ∀ tnow m, connGet ((wsOnMessage tnow s c m).1).conns c = ⟨some rid, some rl⟩) := by
  intro hclaim
  have h := hclaim trace2 trace2_reach 0 ("r") ("sender") (by decide) 3
    ⟨some ("join"), some ("r2"), some ("t"), some ("receiver"), none⟩
  exact absurd h (by decide)

/-- Claim C3, amended: leave and disconnect cleanup never change any socket
binding, and every message either leaves the binding of the sending socket
unchanged or is a join that sets the binding to exactly that join roomId and
role, possibly overwriting an earlier different binding. -/
theorem C3_theorem :
    (∀ (tnow : Nat) (s : ServerState) (c c2 : ConnId),
      connGet ((cleanupSocket tnow s c).1).conns c2 = connGet s.conns c2) ∧
    (∀ (tnow : Nat) (s : ServerState) (c : ConnId) (m : RawMsg),
      connGet ((wsOnMessage tnow s c m).1).conns c = connGet s.conns c ∨
      (m.type = some ("join") ∧ ∃ rid rl, m.roomId = some rid ∧ m.role = some rl ∧
        connGet ((wsOnMessage tnow s c m).1).conns c = ⟨some rid, some rl⟩)) ∧
    (∀ (tnow : Nat) (s : ServerState) (c : ConnId) (m : RawMsg),
      connGet ((handleSocketMsg tnow s c m).1).conns c = connGet s.conns c ∨
      (m.type = some ("join") ∧ ∃ rid rl, m.roomId = some rid ∧ m.role = some rl ∧
        connGet ((handleSocketMsg tnow s c m).1).conns c = ⟨some rid, some rl⟩)) :=
  ⟨fun tnow s c c2 => by rw [cleanupSocket_conns],
   wsOnMessage_binding,
   handleSocketMsg_binding⟩

/-- Claim C4, counterexample: a third connection joining a full room as sender
with the correct token is answered "sender exists", not "room full"; the
quantified claim is refuted at the concrete state stFull. -/
theorem C4_counterexample :
    ¬ (∀ (tnow : Nat) (s : ServerState) (c a b : ConnId)
        (rid tok rl : String) (d : Option String) (room : Room),
        (rl = "sender" ∨ rl = "receiver") →
        mapGet s.rooms rid = some room →
        room.token = some tok →
        room.sender = some a → a ≠ c →
        room.receiver = some b → b ≠ c →
        isOpen s c = true →
        (handleSocketMsg tnow s c ⟨some ("join"), some rid, some tok, some rl, d⟩).2 =
          [Output.msg c (SMsg.error ("room full"))]) := by
  intro hclaim
  have h := hclaim 0 stFull 2 0 1 ("r") ("t") ("sender") none ⟨some 0, some 1, some ("t"), 0⟩
    (Or.inl rfl) (by decide) (by decide) (by decide) (by decide) (by decide) (by decide) (by decide)
  exact absurd h (by decide)

/-- Claim C4, amended: the third connection is rejected with "sender exists" /
"Sender already present" (for role sender) or "receiver exists" / "Receiver
already present" (for role receiver), and the server state is unchanged; the
"room full" message is unreachable for these two roles. -/
theorem C4_theorem (tnow : Nat) (s : ServerState) (c a b : ConnId)
    (rid tok rl : String) (d : Option String) (room : Room)
    (hrid0 : rid ≠ "") (htok0 : tok ≠ "")
    (hrole : rl = "sender" ∨ rl = "receiver")
    (hroom : mapGet s.rooms rid = some room)
    (hsec : room.token = some tok)
    (hsender : room.sender = some a) (ha : a ≠ c)
    (hreceiver : room.receiver = some b) (hb : b ≠ c)
    (hopen : isOpen s c = true) :
    handleSocketMsg tnow s c ⟨some ("join"), some rid, some tok, some rl, d⟩ =
      (s, [Output.msg c (SMsg.error
        (if rl = "sender" then "sender exists" else "receiver exists"))]) ∧
    wsOnMessage tnow s c ⟨some ("join"), some rid, some tok, some rl, d⟩ =
      (s, [Output.msg c (SMsg.error
        (if rl = "sender" then "Sender already present" else "Receiver already present"))]) := by
  constructor
  · rw [handleSocketMsg_join]
    exact denoJoin_slot_taken tnow s c a b rid tok rl room hrid0 htok0 hrole hroom hsec
      hsender ha hreceiver hb hopen
  · rw [wsOnMessage_join]
    exact wsJoin_slot_taken tnow s c a b rid tok rl room hrid0 htok0 hrole hroom hsec
      hsender ha hreceiver hb hopen

/-- Witness for the amended claim C4: socket 2 joins the full room "r" as
sender and is told the sender exists. -/
theorem C4_witness :
    handleSocketMsg 0 stFull 2 ⟨some ("join"), some ("r"), some ("t"), some ("sender"), none⟩ =
      (stFull, [Output.msg 2 (SMsg.error
        (if "sender" = "sender" then "sender exists" else "receiver exists"))]) ∧
    wsOnMessage 0 stFull 2 ⟨some ("join"), some ("r"), some ("t"), some ("sender"), none⟩ =
      (stFull, [Output.msg 2 (SMsg.error
        (if "sender" = "sender" then "Sender already present" else "Receiver already present"))]) :=
  C4_theorem 0 stFull 2 0 1 ("r") ("t") ("sender") none ⟨some 0, some 1, some ("t"), 0⟩
    (by decide) (by decide) (Or.inl rfl) (by decide) (by decide) (by decide) (by decide)
    (by decide) (by decide) (by decide)

/-- Claim C5, counterexample: the claim says the server answers an error
envelope when the opposite slot has no connected peer. The Deno server has no
such check: at the concrete state stHalf, an offer from the joined sender
whose room has no receiver produces no reply at all, so no error envelope
of any message text is sent. -/
theorem C5_counterexample :
    ¬ (∀ (tnow : Nat) (s : ServerState) (c : ConnId)
        (ty rid rl : String) (d : Option String) (room : Room),
        (ty = "offer" ∨ ty = "answer" ∨ ty = "ice") →
        connGet s.conns c = ⟨some rid, some rl⟩ →
        mapGet s.rooms rid = some room →
        (if rl = "sender" then room.receiver else room.sender) = none →
        isOpen s c = true →
        ∃ emsg, Output.msg c (SMsg.error emsg) ∈
          (handleSocketMsg tnow s c ⟨some ty, none, none, none, d⟩).2) := by
  intro hclaim
  obtain ⟨emsg, hmem⟩ := hclaim 9 stHalf 0 ("offer") ("r") ("sender") none
    ⟨some 0, none, some ("t"), 0⟩ (Or.inl rfl) (by decide) (by decide) (by decide) (by decide)
  rw [show (handleSocketMsg 9 stHalf 0 ⟨some ("offer"), none, none, none, none⟩).2 = []
    from by decide] at hmem
  exact List.not_mem_nil _ hmem

/-- Claim C5, amended: when the opposite slot has no currently connected peer,
the ws server answers "Peer not connected" and leaves the state unchanged,
while the Deno server silently drops the message, emitting nothing and only
refreshing the room activity timestamp; in both servers the message is
dropped, never queued. -/
theorem C5_theorem (tnow : Nat) (s : ServerState) (c : ConnId)
    (ty rid rl : String) (d : Option String) (room : Room)
    (hty : ty = "offer" ∨ ty = "answer" ∨ ty = "ice")
    (hconn : connGet s.conns c = ⟨some rid, some rl⟩)
    (hrid0 : rid ≠ "") (hrl0 : rl ≠ "")
    (hroom : mapGet s.rooms rid = some room)
    (hpeer : (if rl = "sender" then room.receiver else room.sender) = none ∨
      ∃ p, (if rl = "sender" then room.receiver else room.sender) = some p ∧ isOpen s p = false)
    (hopen : isOpen s c = true) :
    wsOnMessage tnow s c ⟨some ty, none, none, none, d⟩ =
      (s, [Output.msg c (SMsg.error ("Peer not connected"))]) ∧
    handleSocketMsg tnow s c ⟨some ty, none, none, none, d⟩ = (touchRoom s rid tnow, []) := by
  constructor
  · rw [wsOnMessage_signal tnow s c ty none none none d hty,
      wsSignal_no_peer tnow s c ty d rid rl room hconn hrid0 hrl0 hroom hpeer]
    simp [send, hopen]
  · rw [handleSocketMsg_signal tnow s c ty none none none d hty]
    exact denoSignal_dropped tnow s c ty d rid rl room hconn hroom hpeer

/-- Witness for the amended claim C5 at the concrete state stHalf. -/
theorem C5_witness :
    wsOnMessage 9 stHalf 0 ⟨some ("offer"), none, none, none, none⟩ =
      (stHalf, [Output.msg 0 (SMsg.error ("Peer not connected"))]) ∧
    handleSocketMsg 9 stHalf 0 ⟨some ("offer"), none, none, none, none⟩ =
      (touchRoom stHalf ("r") 9, []) :=
  C5_theorem 9 stHalf 0 ("offer") ("r") ("sender") none ⟨some 0, none, some ("t"), 0⟩
    (Or.inl rfl) (by decide) (by decide) (by decide) (by decide) (Or.inl (by decide)) (by decide)

/-- Claim C6, counterexample: the claim says a signaling message on a
never-joined connection is answered with a join-first error. The Deno server
has no joined-check and instead answers "no room"; the quantified claim is
refuted at the concrete state stOpen0. -/
theorem C6_counterexample :
    ¬ (∀ (tnow : Nat) (s : ServerState) (c : ConnId) (d : Option String),
        connGet s.conns c = ⟨none, none⟩ → isOpen s c = true →
        (handleSocketMsg tnow s c ⟨some ("offer"), none, none, none, d⟩).2 =
          [Output.msg c (SMsg.error ("Join first"))]) := by
  intro hclaim
  have h := hclaim 9 stOpen0 0 none (by decide) (by decide)
  exact absurd h (by decide)

/-- Claim C6, amended: a signaling message from a never-joined connection is
answered "Join first" by the ws server and "no room" by the Deno server; in
both cases the state is unchanged and nothing is relayed to any connection. -/
theorem C6_theorem (tnow : Nat) (s : ServerState) (c : ConnId)
    (ty : String) (d : Option String)
    (hty : ty = "offer" ∨ ty = "answer" ∨ ty = "ice")
    (hconn : connGet s.conns c = ⟨none, none⟩)
    (hopen : isOpen s c = true) :
    wsOnMessage tnow s c ⟨some ty, none, none, none, d⟩ =
      (s, [Output.msg c (SMsg.error ("Join first"))]) ∧
    handleSocketMsg tnow s c ⟨some ty, none, none, none, d⟩ =
      (s, [Output.msg c (SMsg.error ("no room"))]) := by
  constructor
  · rw [wsOnMessage_signal tnow s c ty none none none d hty,
      wsSignal_unjoined tnow s c ty d hconn]
    simp [send, hopen]
  · rw [handleSocketMsg_signal tnow s c ty none none none d hty,
      denoSignal_unjoined tnow s c ty d hconn]
    simp [send, hopen]

/-- Witness for the amended claim C6 at the concrete state stOpen0. -/
theorem C6_witness :
    wsOnMessage 9 stOpen0 0 ⟨some ("offer"), none, none, none, none⟩ =
      (stOpen0, [Output.msg 0 (SMsg.error ("Join first"))]) ∧
    handleSocketMsg 9 stOpen0 0 ⟨some ("offer"), none, none, none, none⟩ =
      (stOpen0, [Output.msg 0 (SMsg.error ("no room"))]) :=
  C6_theorem 9 stOpen0 0 ("offer") none (Or.inl rfl) (by decide) (by decide)

/-- Claim C7: cleanup is not idempotent, contradicting the stated requirement.
At the concrete state stFull, cleaning up socket 0 sends one peer-left to the
remaining receiver and leaves a state from which a second identical cleanup
sends the receiver a second peer-left, although the state is unchanged. -/
theorem C7_theorem :
    (cleanupSocket 5 stFull 0).2 = [Output.msg 1 SMsg.peerLeft] ∧
    (cleanupSocket 5 (cleanupSocket 5 stFull 0).1 0).2 = [Output.msg 1 SMsg.peerLeft] ∧
    (cleanupSocket 5 (cleanupSocket 5 stFull 0).1 0).1 = (cleanupSocket 5 stFull 0).1 := by
  decide

/-- Claim C8, counterexample: re-joining with the same role is claimed to
leave peer-visible messages unchanged, yet at the concrete state stFull a
re-join by the sender makes the receiver (socket 1) receive another ready. -/
theorem C8_counterexample :
    ¬ (∀ (tnow : Nat) (s : ServerState) (c : ConnId)
        (rid tok rl : String) (d : Option String) (room : Room),
        mapGet s.conns c = some ⟨some rid, some rl⟩ →
        mapGet s.rooms rid = some room →
        room.token = some tok →
        ((rl = "sender" ∧ room.sender = some c) ∨ (rl = "receiver" ∧ room.receiver = some c)) →
        ∀ d2 sm, d2 ≠ c →
          Output.msg d2 sm ∉
            (wsOnMessage tnow s c ⟨some ("join"), some rid, some tok, some rl, d⟩).2) := by
  intro hclaim
  exact hclaim 7 stFull 0 ("r") ("t") ("sender") none ⟨some 0, some 1, some ("t"), 0⟩
    (by decide) (by decide) (by decide) (Or.inl ⟨rfl, by decide⟩) 1 SMsg.ready
    (by decide) (by decide)

/-- Claim C8, amended: a re-join with the same role and correct token yields
joined again and leaves the membership, bindings and secret unchanged apart
from the refreshed activity timestamp, but when both slots are occupied it
also emits a fresh ready to both occupants, so the peer does observe the
repeated join. -/
theorem C8_theorem (tnow : Nat) (s : ServerState) (c : ConnId)
    (rid tok rl : String) (d : Option String) (room : Room)
    (hrid0 : rid ≠ "") (htok0 : tok ≠ "")
    (hroom : mapGet s.rooms rid = some room)
    (hsec : room.token = some tok)
    (hconn : mapGet s.conns c = some ⟨some rid, some rl⟩)
    (hocc : (rl = "sender" ∧ room.sender = some c) ∨ (rl = "receiver" ∧ room.receiver = some c)) :
    wsOnMessage tnow s c ⟨some ("join"), some rid, some tok, some rl, d⟩ =
      ({ s with rooms := mapSet s.rooms rid { room with touchedAt := tnow } },
       send s c (SMsg.joined rid rl) ++
         (if room.sender.isSome = true ∧ room.receiver.isSome = true then
            sendOpt s room.sender SMsg.ready ++ sendOpt s room.receiver SMsg.ready
          else [])) ∧
    handleSocketMsg tnow s c ⟨some ("join"), some rid, some tok, some rl, d⟩ =
      ({ s with rooms := mapSet s.rooms rid { room with touchedAt := tnow } },
       send s c (SMsg.joined rid rl) ++
         (if room.sender.isSome = true ∧ room.receiver.isSome = true then
            sendOpt s room.sender SMsg.ready ++ sendOpt s room.receiver SMsg.ready
          else [])) := by
  constructor
  · rw [wsOnMessage_join]
    exact wsJoin_rejoin tnow s c rid tok rl room hrid0 htok0 hroom hsec hconn hocc
  · rw [handleSocketMsg_join]
    exact denoJoin_rejoin tnow s c rid tok rl room hrid0 htok0 hroom hsec hconn hocc

/-- Witness for the amended claim C8 at the concrete state stFull. -/
theorem C8_witness :
    wsOnMessage 7 stFull 0 ⟨some ("join"), some ("r"), some ("t"), some ("sender"), none⟩ =
      ({ stFull with rooms := mapSet stFull.rooms ("r") ⟨some 0, some 1, some ("t"), 7⟩ },
       send stFull 0 (SMsg.joined ("r") ("sender")) ++
         (if (some 0 : Option ConnId).isSome = true ∧ (some 1 : Option ConnId).isSome = true then
            sendOpt stFull (some 0) SMsg.ready ++ sendOpt stFull (some 1) SMsg.ready
          else [])) ∧
    handleSocketMsg 7 stFull 0 ⟨some ("join"), some ("r"), some ("t"), some ("sender"), none⟩ =
      ({ stFull with rooms := mapSet stFull.rooms ("r") ⟨some 0, some 1, some ("t"), 7⟩ },
       send stFull 0 (SMsg.joined ("r") ("sender")) ++
         (if (some 0 : Option ConnId).isSome = true ∧ (some 1 : Option ConnId).isSome = true then
            sendOpt stFull (some 0) SMsg.ready ++ sendOpt stFull (some 1) SMsg.ready
          else [])) :=
  C8_theorem 7 stFull 0 ("r") ("t") ("sender") none ⟨some 0, some 1, some ("t"), 0⟩
    (by decide) (by decide) (by decide) (by decide) (by decide) (Or.inl ⟨rfl, by decide⟩)

/-- Claim C9: iterating the rate-limit step of `enforceRate` (Deno) and
`enforceRateLimit` (ws) from an empty window, 61 arrivals that all lie within
one 10000 ms window pass the first 60 checks and fail the 61st, which closes
the connection with code 1013; arrivals spaced more than 10000 ms apart never
fail the check. -/
theorem C9_theorem :
    (∀ (c : ConnId) (reason : String) (l : List Nat), l.length = 61 →
      (∀ u ∈ l, ∀ t ∈ l, t ≤ u + RATE_LIMIT_WINDOW_MS) →
      rateRun c reason [] l =
        List.replicate 60 (true, []) ++ [(false, [Output.close c 1013 reason])]) ∧
    (∀ (c : ConnId) (reason : String) (l : List Nat),
      List.Chain' (fun a b => a + RATE_LIMIT_WINDOW_MS < b) l →
      rateRun c reason [] l = List.replicate l.length (true, [])) ∧
    (∀ (c : ConnId) (hist : List Nat) (tnow : Nat),
      enforceRate c hist tnow = rateStep c ("rate limit") hist tnow ∧
      enforceRateLimit c hist tnow = rateStep c ("Rate limit exceeded") hist tnow) :=
  ⟨rate_61_window, rate_spaced_ok, fun c hist tnow => ⟨rfl, rfl⟩⟩

/-- Witness for claim C9: 61 messages at time 0 pass 60 checks and the 61st
closes with 1013; three messages 10001 ms apart all pass. -/
theorem C9_witness :
    rateRun 0 ("rate limit") [] (List.replicate 61 0) =
      List.replicate 60 (true, []) ++ [(false, [Output.close 0 1013 ("rate limit")])] ∧
    rateRun 0 ("Rate limit exceeded") [] [0, 10001, 20002] = List.replicate 3 (true, []) :=
  ⟨C9_theorem.1 0 ("rate limit") (List.replicate 61 0) (by decide) (by decide),
   C9_theorem.2.1 0 ("Rate limit exceeded") [0, 10001, 20002]
     (List.Chain.cons (by decide) (List.Chain.cons (by decide) List.Chain.nil))⟩

/-- Claim C10: a join with non-empty roomId and token and a truthy role other
than sender or receiver, sent to an unknown room, is accepted by both
servers: the room is created with the token adopted as its secret, the
connection is bound to (roomId, role), the only reply is joined, and both
slots stay empty, so no ready is emitted now; moreover ready is only ever
emitted to a connection occupying a slot of some room in the resulting
state, which this connection does not. -/
theorem C10_theorem (tnow : Nat) (s : ServerState) (c : ConnId)
    (rid tok rl : String) (d : Option String)
    (hrid0 : rid ≠ "") (htok0 : tok ≠ "") (hrl0 : rl ≠ "")
    (hnots : rl ≠ "sender") (hnotr : rl ≠ "receiver")
    (hroom : mapGet s.rooms rid = none)
    (hopen : isOpen s c = true) :
    wsOnMessage tnow s c ⟨some ("join"), some rid, some tok, some rl, d⟩ =
      ({ s with rooms := mapSet s.rooms rid ⟨none, none, some tok, tnow⟩,
                conns := mapSet s.conns c ⟨some rid, some rl⟩ },
       [Output.msg c (SMsg.joined rid rl)]) ∧
    handleSocketMsg tnow s c ⟨some ("join"), some rid, some tok, some rl, d⟩ =
      ({ s with rooms := mapSet s.rooms rid ⟨none, none, some tok, tnow⟩,
                conns := mapSet s.conns c ⟨some rid, some rl⟩ },
       [Output.msg c (SMsg.joined rid rl)]) ∧
    mapGet ((wsOnMessage tnow s c ⟨some ("join"), some rid, some tok, some rl, d⟩).1).rooms rid =
      some ⟨none, none, some tok, tnow⟩ ∧
    connGet ((wsOnMessage tnow s c ⟨some ("join"), some rid, some tok, some rl, d⟩).1).conns c =
      ⟨some rid, some rl⟩ ∧
    (∀ (tnow2 : Nat) (s2 : ServerState) (c2 : ConnId) (m2 : RawMsg)
        (st : ServerState) (out : List Output) (d2 : ConnId),
      wsOnMessage tnow2 s2 c2 m2 = (st, out) → Output.msg d2 SMsg.ready ∈ out →
      ∃ rid2 room2, mapGet st.rooms rid2 = some room2 ∧
        (room2.sender = some d2 ∨ room2.receiver = some d2)) ∧
    (∀ (tnow2 : Nat) (s2 : ServerState) (c2 : ConnId) (m2 : RawMsg)
        (st : ServerState) (out : List Output) (d2 : ConnId),
      handleSocketMsg tnow2 s2 c2 m2 = (st, out) → Output.msg d2 SMsg.ready ∈ out →
      ∃ rid2 room2, mapGet st.rooms rid2 = some room2 ∧
        (room2.sender = some d2 ∨ room2.receiver = some d2)) := by
  have hw : wsOnMessage tnow s c ⟨some ("join"), some rid, some tok, some rl, d⟩ =
      ({ s with rooms := mapSet s.rooms rid ⟨none, none, some tok, tnow⟩,
                conns := mapSet s.conns c ⟨some rid, some rl⟩ },
       [Output.msg c (SMsg.joined rid rl)]) := by
    rw [wsOnMessage_join,
      wsJoin_new_room_other_role tnow s c rid tok rl hrid0 htok0 hrl0 hnots hnotr hroom]
    simp [send, hopen]
  have hd : handleSocketMsg tnow s c ⟨some ("join"), some rid, some tok, some rl, d⟩ =
      ({ s with rooms := mapSet s.rooms rid ⟨none, none, some tok, tnow⟩,
                conns := mapSet s.conns c ⟨some rid, some rl⟩ },
       [Output.msg c (SMsg.joined rid rl)]) := by
    rw [handleSocketMsg_join,
      denoJoin_new_room_other_role tnow s c rid tok rl hrid0 htok0 hrl0 hnots hnotr hroom]
    simp [send, hopen]
  refine ⟨hw, hd, ?_, ?_, ?_, ?_⟩
  · rw [hw]
    exact mapGet_set_self _ _ _
  · rw [hw]
    exact connGet_set_self _ _ _
  · exact fun tnow2 s2 c2 m2 st out d2 hres h =>
      wsOnMessage_ready_occupant tnow2 s2 c2 m2 st out d2 hres h
  · exact fun tnow2 s2 c2 m2 st out d2 hres h =>
      handleSocketMsg_ready_occupant tnow2 s2 c2 m2 st out d2 hres h

/-- Witness for claim C10: socket 0 joins the unknown room "r" with role
"observer"; the first conjunct of the claim theorem at this input. -/
theorem C10_witness :
    wsOnMessage 4 stOpen0 0 ⟨some ("join"), some ("r"), some ("t"), some ("observer"), none⟩ =
      ({ stOpen0 with rooms := mapSet stOpen0.rooms ("r") ⟨none, none, some ("t"), 4⟩,
                      conns := mapSet stOpen0.conns 0 ⟨some ("r"), some ("observer")⟩ },
       [Output.msg 0 (SMsg.joined ("r") ("observer"))]) :=
  (C10_theorem 4 stOpen0 0 ("r") ("t") ("observer") none
    (by decide) (by decide) (by decide) (by decide) (by decide) (by decide) (by decide)).1

end Signaling
